/-
  Verification of the panindigan real-time transport core.

  Shallow embedding of the MQTT-over-WebSocket client (class MQTTClient in
  src/media/MediaUploader.ts) and of the event-parsing layer (class
  EventParser in src/users/UserManager.ts).

  Modelling conventions:
  * Node Buffers are modelled as `List Nat` of byte values.
  * JavaScript strings that are converted to buffers are modelled by the
    list of their character codes (all strings involved are ASCII, where
    UTF-8 bytes and character codes coincide).
  * `Buffer.readUInt16BE` is bounds-checked in Node and throws a RangeError
    past the end of the buffer; it is modelled as an `Option` read.
  * A plain JavaScript indexed read `data[i]` past the end of a buffer
    yields `undefined`; the only such reads occur under `& 127` / `& 128`
    masks, where `undefined` coerces to 0, so the read is modelled as
    `List.getD _ _ 0`.
  * The do/while loop of encodeRemainingLength is modelled with an explicit
    fuel argument (`fuel = n` always suffices since the loop divides its
    state by 128 each iteration and runs at least once).
-/
import Mathlib

namespace Panindigan

/-- An outbound message, interface MQTTMessage of MediaUploader.ts
    (topic is a string in the source; it is stored here as its bytes). -/
structure MQTTMessage where
  topic : List Nat
  payload : List Nat
  qos : Nat
  retain : Bool
deriving DecidableEq, Repr

/-- Character codes of a string; models Buffer.from(s, "utf-8") for the
    ASCII strings used by the client. -/
def strBytes (s : String) : List Nat :=
  s.data.map Char.toNat

/-- Big-endian 16-bit write, models buf.writeUInt16BE (callers stay below
    65536, where the Node range check passes). -/
def uint16BE (v : Nat) : List Nat :=
  [v / 256 % 256, v % 256]

/-- JavaScript indexed read `data[i]` as used under bit masks (out of range
    gives undefined, which the masks coerce to 0). -/
def byteAt (data : List Nat) (i : Nat) : Nat :=
  data.getD i 0

/-- Node's bounds-checked data.readUInt16BE(i): none models the thrown
    RangeError. -/
def readUInt16BE (data : List Nat) (i : Nat) : Option Nat :=
  if i + 2 ≤ data.length then some (data.getD i 0 * 256 + data.getD (i + 1) 0)
  else none

/-- Loop body of MQTTClient.encodeRemainingLength: do { digit = num % 128;
    num = floor(num / 128); if (num > 0) digit |= 0x80; push(digit) }
    while (num > 0).  The fuel argument only bounds the iteration count;
    passing n itself is always enough. -/
def encodeRLAux : Nat → Nat → List Nat
  | n, 0 => [n % 128]
  | n, fuel + 1 =>
    let digit := n % 128
    let num := n / 128
    if 0 < num then (digit ||| 128) :: encodeRLAux num fuel else [digit]

/-- MQTTClient.encodeRemainingLength. -/
def encodeRemainingLength (n : Nat) : List Nat :=
  encodeRLAux n n

/-- The remaining-length decoding loop of MQTTClient.parsePublishPacket:
    do { digit = data[offset++]; value += (digit & 127) * multiplier;
    multiplier *= 128 } while ((digit & 128) != 0).
    Input is the byte list from the current offset on and the current
    multiplier; result is (value read, bytes consumed). -/
def decodeRLLoop : List Nat → Nat → Nat × Nat
  | [], _ => (0, 1)
  | d :: rest, mult =>
    if d &&& 128 ≠ 0 then
      let r := decodeRLLoop rest (mult * 128)
      ((d &&& 127) * mult + r.1, r.2 + 1)
    else ((d &&& 127) * mult, 1)

/-- The decoding loop applied to a buffer at a given starting offset,
    with the initial multiplier 1. -/
def decodeRemainingLength (data : List Nat) (offset : Nat) : Nat × Nat :=
  decodeRLLoop (data.drop offset) 1

/-- Result shape of MQTTClient.parsePublishPacket (the decoded topic is
    kept as its bytes). -/
structure ParsedPublish where
  topic : List Nat
  payload : List Nat
  qos : Nat
  packetId : Option Nat
deriving DecidableEq, Repr

/-- MQTTClient.parsePublishPacket.  Mirrors the source exactly: the
    remaining-length loop starts at `let offset = 2`, the topic slice
    clamps like Buffer.toString, and readUInt16BE past the end throws
    (modelled as none). -/
def parsePublishPacket (data : List Nat) : Option ParsedPublish :=
  let qos := (byteAt data 0 >>> 1) &&& 3
  let r := decodeRemainingLength data 2
  let offset := 2 + r.2
  match readUInt16BE data offset with
  | none => none
  | some topicLength =>
    let offset1 := offset + 2
    let topic := (data.drop offset1).take topicLength
    let offset2 := offset1 + topicLength
    if 0 < qos then
      match readUInt16BE data offset2 with
      | none => none
      | some pid => some ⟨topic, data.drop (offset2 + 2), qos, some pid⟩
    else some ⟨topic, data.drop offset2, qos, none⟩

/-- MQTTClient.buildPublishPacket.  The packet id is appended only when
    `message.qos > 0 && packetId` holds, where the second conjunct is a
    JavaScript truthiness test: both undefined and 0 fail it. -/
def buildPublishPacket (m : MQTTMessage) (packetId : Option Nat) : List Nat :=
  let topicLength := uint16BE m.topic.length
  let vh0 := topicLength ++ m.topic
  let variableHeader :=
    if 0 < m.qos ∧ packetId.getD 0 ≠ 0 then
      vh0 ++ uint16BE (packetId.getD 0)
    else vh0
  let remainingLength := variableHeader.length + m.payload.length
  (0x30 ||| (m.qos <<< 1) ||| (if m.retain then 1 else 0)) ::
    (encodeRemainingLength remainingLength ++ variableHeader ++ m.payload)

/-- MQTTClient.buildSubscribePacket. -/
def buildSubscribePacket (packetId : Nat) (topic : List Nat) (qos : Nat) : List Nat :=
  let payload := uint16BE packetId ++ uint16BE topic.length ++ topic ++ [qos]
  0x82 :: (encodeRemainingLength payload.length ++ payload)

/-- MQTTClient.buildPubAckPacket. -/
def buildPubAckPacket (packetId : Nat) : List Nat :=
  [0x40, 0x02, (packetId >>> 8) &&& 0xFF, packetId &&& 0xFF]

/-- MQTTClient.sendDisconnect packet bytes. -/
def disconnectPacket : List Nat := [0xE0, 0x00]

/-- MQTTClient.sendPing packet bytes. -/
def pingPacket : List Nat := [0xC0, 0x00]

/-- maxReconnectAttempts field initializer. -/
def maxReconnectAttempts : Nat := 10

/-- PUBLISH acknowledgment timeout in sendPublish (milliseconds). -/
def ackTimeoutMs : Nat := 30000

/-- Events emitted through the EventEmitter base class, restricted to the
    lifecycle events the claims are about. -/
inductive Emitted where
  | connectEv : Emitted
  | disconnectEv : Emitted
  | errorEv (msg : String) : Emitted
deriving DecidableEq, Repr

/-- The mutable fields of MQTTClient.  Timers are modelled by whether they
    are currently scheduled; the WebSocket by whether `this.ws` is non-null;
    `sentFrames` is the trace of ws.send calls; `emitted` the trace of
    lifecycle emits; pendingAcks holds the keys of the pending-ack Map, and
    ackResolved / ackRejected record the fate of the acknowledgment
    promises created by sendPublish. -/
structure ClientState where
  wsPresent : Bool
  connected : Bool
  connecting : Bool
  reconnectAttempts : Nat
  reconnectTimerSet : Bool
  keepAliveTimerSet : Bool
  lastPacketId : Nat
  pendingAcks : List Nat
  messageQueue : List MQTTMessage
  sentFrames : List (List Nat)
  emitted : List Emitted
  ackResolved : List Nat
  ackRejected : List Nat
deriving DecidableEq, Repr

/-- this.ws?.send(frame): records the frame when the socket is present. -/
def wsSend (st : ClientState) (frame : List Nat) : ClientState :=
  if st.wsPresent then { st with sentFrames := st.sentFrames ++ [frame] } else st

/-- MQTTClient.getNextPacketId: lastPacketId = (lastPacketId + 1) % 65536. -/
def advancePacketId (st : ClientState) : ClientState :=
  { st with lastPacketId := (st.lastPacketId + 1) % 65536 }

/-- Map.set on the pending-ack key set (re-setting an existing key keeps
    the key set unchanged). -/
def mapSet (l : List Nat) (k : Nat) : List Nat :=
  if k ∈ l then l else k :: l

/-- MQTTClient.sendPublish.  Allocates a packet id when qos > 0, builds and
    sends the PUBLISH frame, and — when `message.qos > 0 && packetId` is
    truthy, i.e. the id is neither undefined nor 0 — registers a pending
    acknowledgment and returns the promise awaiting the PUBACK (second
    component; none models the undefined return of the qos-0 path). -/
def sendPublishOp (st : ClientState) (m : MQTTMessage) : ClientState × Option Nat :=
  let st1 := if 0 < m.qos then advancePacketId st else st
  let packetId : Option Nat := if 0 < m.qos then some st1.lastPacketId else none
  let st2 := wsSend st1 (buildPublishPacket m packetId)
  if 0 < m.qos ∧ packetId.getD 0 ≠ 0 then
    ({ st2 with pendingAcks := mapSet st2.pendingAcks (packetId.getD 0) }, packetId)
  else (st2, none)

/-- MQTTClient.publish: queues the message when not connected or the
    socket is gone, otherwise sends it immediately — discarding the value
    sendPublish returns (the method's return type is void). -/
def publishOp (st : ClientState) (topic payload : List Nat) (qos : Nat) (retain : Bool) :
    ClientState :=
  let m : MQTTMessage := ⟨topic, payload, qos, retain⟩
  if ¬st.connected ∨ ¬st.wsPresent then
    { st with messageQueue := st.messageQueue ++ [m] }
  else (sendPublishOp st m).1

/-- MQTTClient.subscribe: throws when not connected, otherwise allocates a
    packet id and sends one SUBSCRIBE frame. -/
def subscribeOp (st : ClientState) (topic : List Nat) (qos : Nat) :
    Except String ClientState :=
  if ¬st.connected ∨ ¬st.wsPresent then Except.error "Not connected to MQTT broker"
  else
    let st1 := advancePacketId st
    Except.ok (wsSend st1 (buildSubscribePacket st1.lastPacketId topic qos))

/-- The fixed topic list of MQTTClient.subscribeToTopics (and of
    buildBrokerUrl), including the per-user personal topic. -/
def clientTopics (uid : String) : List String :=
  ["/t_ms", "/t_rtc", "/t_p", "/t_tn", "/t_graphql", "/t_messaging_events",
   "mqtt_c2b_" ++ uid,
   "/t_sb", "/t_admin_text", "/t_presence", "/t_msg_body", "/t_delta"]

/-- The per-user personal topic string subscribed by subscribeToTopics. -/
def personalTopic (uid : String) : String :=
  "mqtt_c2b_" ++ uid

/-- The for-loop of MQTTClient.subscribeToTopics over an arbitrary topic
    list: each subscribe call is try/caught independently, a failing one
    leaving the state unchanged. -/
def subsFold (st : ClientState) : List (List Nat) → ClientState
  | [] => st
  | t :: rest =>
    match subscribeOp st t 1 with
    | Except.ok st1 => subsFold st1 rest
    | Except.error _ => subsFold st rest

/-- MQTTClient.subscribeToTopics. -/
def subscribeToTopicsOp (uid : String) (st : ClientState) : ClientState :=
  subsFold st ((clientTopics uid).map strBytes)

/-- The while loop of MQTTClient.processMessageQueue, with fuel equal to
    the queue length (each iteration shifts one message off the queue and
    sendPublish never grows it, so this is exactly the source loop). -/
def processQueueGo : ClientState → Nat → ClientState
  | st, 0 => st
  | st, fuel + 1 =>
    if st.connected then
      match st.messageQueue with
      | [] => st
      | m :: rest => processQueueGo ((sendPublishOp { st with messageQueue := rest } m).1) fuel
    else st

/-- MQTTClient.processMessageQueue. -/
def processMessageQueueOp (st : ClientState) : ClientState :=
  processQueueGo st st.messageQueue.length

/-- MQTTClient.startKeepAlive. -/
def startKeepAliveOp (st : ClientState) : ClientState :=
  { st with keepAliveTimerSet := true }

/-- MQTTClient.stopKeepAlive. -/
def stopKeepAliveOp (st : ClientState) : ClientState :=
  { st with keepAliveTimerSet := false }

/-- MQTTClient.scheduleReconnect: a no-op when a reconnect timer is already
    pending, otherwise increments the attempt counter and schedules the
    timer (which will later run connect()). -/
def scheduleReconnectOp (st : ClientState) : ClientState :=
  if st.reconnectTimerSet then st
  else { st with reconnectAttempts := st.reconnectAttempts + 1, reconnectTimerSet := true }

/-- MQTTClient.stopReconnect. -/
def stopReconnectOp (st : ClientState) : ClientState :=
  { st with reconnectTimerSet := false }

/-- MQTTClient.connect up to the point where the WebSocket is opened: a
    no-op when already connected or connecting, otherwise marks the client
    connecting and creates the socket.  Note that it does not touch
    reconnectAttempts. -/
def connectOp (st : ClientState) : ClientState :=
  if st.connected ∨ st.connecting then st
  else { st with connecting := true, wsPresent := true }

/-- MQTTClient.disconnect: stops both timers, best-effort sends DISCONNECT,
    closes and clears the socket, clears the flags and emits disconnect. -/
def disconnectOp (st : ClientState) : ClientState :=
  let st1 := stopKeepAliveOp (stopReconnectOp st)
  let st2 :=
    if st1.wsPresent then { wsSend st1 disconnectPacket with wsPresent := false }
    else st1
  { st2 with connected := false, connecting := false,
             emitted := st2.emitted ++ [Emitted.disconnectEv] }

/-- MQTTClient.handleClose, the WebSocket close handler: clears the flags,
    emits disconnect, and schedules a reconnect whenever the attempt budget
    is not yet exhausted — with no check that the close was caused by an
    explicit disconnect() call. -/
def handleCloseOp (st : ClientState) : ClientState :=
  let st1 := { st with connected := false, connecting := false,
                       emitted := st.emitted ++ [Emitted.disconnectEv] }
  if st1.reconnectAttempts < maxReconnectAttempts then scheduleReconnectOp st1 else st1

/-- The refusal-reason table of MQTTClient.handleConnAck. -/
def refusalReason (rc : Nat) : String :=
  match rc with
  | 1 => "Connection Refused - Unacceptable protocol version"
  | 2 => "Connection Refused - Identifier rejected"
  | 3 => "Connection Refused - Server unavailable"
  | 4 => "Connection Refused - Bad user name or password"
  | 5 => "Connection Refused - Not authorized (bad cookies)"
  | _ => "Connection refused with code " ++ toString rc

/-- MQTTClient.handleConnAck: return code 0 marks the client connected,
    resets the attempt counter, starts keep-alive, subscribes to the fixed
    topics, flushes the queue and emits connect; any other code clears
    `connecting` and emits an error with the mapped refusal reason. -/
def handleConnAckOp (uid : String) (st : ClientState) (rc : Nat) : ClientState :=
  if rc = 0 then
    let st1 := { st with connected := true, connecting := false, reconnectAttempts := 0 }
    let st2 := startKeepAliveOp st1
    let st3 := subscribeToTopicsOp uid st2
    let st4 := processMessageQueueOp st3
    { st4 with emitted := st4.emitted ++ [Emitted.connectEv] }
  else
    { st with connecting := false,
              emitted := st.emitted ++ [Emitted.errorEv (refusalReason rc)] }

/-- MQTTClient.handlePubAck: a matching pending acknowledgment is resolved
    and removed from the map (the resolution clears its timeout). -/
def handlePubAckOp (st : ClientState) (packetId : Nat) : ClientState :=
  if packetId ∈ st.pendingAcks then
    { st with pendingAcks := st.pendingAcks.erase packetId,
              ackResolved := st.ackResolved ++ [packetId] }
  else st

/-- The 30-second timeout callback registered by sendPublish: when it fires
    (i.e. the acknowledgment is still pending), the entry is deleted and the
    promise rejected with "PUBLISH timeout". -/
def ackTimeoutOp (st : ClientState) (packetId : Nat) : ClientState :=
  if packetId ∈ st.pendingAcks then
    { st with pendingAcks := st.pendingAcks.erase packetId,
              ackRejected := st.ackRejected ++ [packetId] }
  else st

/-- Frames and final counter value produced by issuing one SUBSCRIBE per
    topic in order, starting from a given packet-id counter (specification
    of the subscribeToTopics loop's output). -/
def subsSpec : Nat → List (List Nat) → List (List Nat) × Nat
  | ctr, [] => ([], ctr)
  | ctr, t :: rest =>
    let pid := (ctr + 1) % 65536
    let r := subsSpec pid rest
    (buildSubscribePacket pid t 1 :: r.1, r.2)

/-- Frames, final counter and final pending-ack key set produced by sending
    a list of queued messages in order through sendPublish (specification of
    the processMessageQueue loop's output). -/
def flushSpec : Nat → List Nat → List MQTTMessage → List (List Nat) × Nat × List Nat
  | ctr, acks, [] => ([], ctr, acks)
  | ctr, acks, m :: rest =>
    if 0 < m.qos then
      let pid := (ctr + 1) % 65536
      let acks1 := if pid = 0 then acks else mapSet acks pid
      let r := flushSpec pid acks1 rest
      (buildPublishPacket m (some pid) :: r.1, r.2.1, r.2.2)
    else
      let r := flushSpec ctr acks rest
      (buildPublishPacket m none :: r.1, r.2.1, r.2.2)

/-
  EventParser (src/users/UserManager.ts).  The payload buffer is given as
  the JSON value JSON.parse produced (a failing JSON.parse is the `none`
  case of the surrounding try/catch and is outside this model).  JavaScript
  property access is modelled in an error monad: reading a property of
  null or undefined throws a TypeError, which the try/catch in
  EventParser.parse turns into a null result; reading an absent property
  of any other value yields undefined (`none`).
-/

/-- JSON values. -/
inductive Json where
  | null : Json
  | bool (b : Bool) : Json
  | num (n : Int) : Json
  | str (s : String) : Json
  | arr (xs : List Json) : Json
  | obj (fields : List (String × Json)) : Json

/-- First binding of a key in a JavaScript object literal. -/
def jLookup : List (String × Json) → String → Option Json
  | [], _ => none
  | (k, v) :: rest, key => if k = key then some v else jLookup rest key

/-- JavaScript truthiness of a JSON value. -/
def jTruthy : Json → Bool
  | Json.null => false
  | Json.bool b => b
  | Json.num n => n != 0
  | Json.str s => s != ""
  | Json.arr _ => true
  | Json.obj _ => true

/-- Truthiness of a possibly-undefined value. -/
def jTruthyOpt : Option Json → Bool
  | none => false
  | some j => jTruthy j

/-- Property access `recv.k` on a possibly-undefined value: throws on null
    and undefined, yields undefined on other non-objects. -/
def jAccess : Option Json → String → Except String (Option Json)
  | none, _ => Except.error "TypeError"
  | some Json.null, _ => Except.error "TypeError"
  | some (Json.obj fs), k => Except.ok (jLookup fs k)
  | some _, _ => Except.ok none

/-- Property access on a receiver already known (by a truthiness guard or a
    previous successful access) not to be null or undefined. -/
def jFieldP : Json → String → Option Json
  | Json.obj fs, k => jLookup fs k
  | _, _ => none

/-- Optional chaining `recv?.k`. -/
def jOptChain : Option Json → String → Option Json
  | none, _ => none
  | some Json.null, _ => none
  | some (Json.obj fs), k => jLookup fs k
  | some _, _ => none

/-- JavaScript `v || dflt` for a possibly-undefined v. -/
def jOrElse (v : Option Json) (dflt : Json) : Json :=
  match v with
  | some j => if jTruthy j then j else dflt
  | none => dflt

/-- EventParser.extractThreadId: group thread id first, then the 1-1 other
    user id, both under truthiness tests; otherwise null. -/
def extractThreadId (threadKey : Option Json) : Option Json :=
  match threadKey with
  | none => none
  | some tk =>
    if jTruthy tk then
      let g := jFieldP tk "threadFbId"
      if jTruthyOpt g then g
      else
        let o := jFieldP tk "otherUserFbId"
        if jTruthyOpt o then o else none
    else none

/-- EventParser.parseAttachments. -/
def parseAttachments (delta : Json) : List Json :=
  match jFieldP delta "attachments" with
  | some (Json.arr xs) => xs
  | _ => []

/-- EventParser.parseMentions. -/
def parseMentions (delta : Json) : List Json :=
  match jFieldP delta "mentions" with
  | some (Json.arr xs) => xs
  | _ => []

/-- The seven named reaction kinds. -/
inductive ReactionKind where
  | like | love | haha | wow | sad | angry | care
deriving DecidableEq, Repr

/-- EventParser.mapReaction: the fixed emoji table; any other value (a
    non-string key never matches the string keys of the table) maps to
    null. -/
def mapReaction (v : Json) : Option ReactionKind :=
  match v with
  | Json.str s =>
    if s = "👍" then some ReactionKind.like
    else if s = "❤️" then some ReactionKind.love
    else if s = "😆" then some ReactionKind.haha
    else if s = "😮" then some ReactionKind.wow
    else if s = "😢" then some ReactionKind.sad
    else if s = "😠" then some ReactionKind.angry
    else if s = "🥰" then some ReactionKind.care
    else none
  | _ => none

/-- Presence status enumeration. -/
inductive PresenceStatus where
  | active | idle | offline
deriving DecidableEq, Repr

/-- EventParser.mapPresenceStatus (a non-string value falls to the switch
    default). -/
def mapPresenceStatus : Option Json → PresenceStatus
  | some (Json.str "ACTIVE") => PresenceStatus.active
  | some (Json.str "active") => PresenceStatus.active
  | some (Json.str "IDLE") => PresenceStatus.idle
  | some (Json.str "idle") => PresenceStatus.idle
  | _ => PresenceStatus.offline

/-- Call status enumeration. -/
inductive CallStatus where
  | started | ended | missed
deriving DecidableEq, Repr

/-- EventParser.mapCallState. -/
def mapCallState : Option Json → CallStatus
  | some (Json.str "STARTED") => CallStatus.started
  | some (Json.str "started") => CallStatus.started
  | some (Json.str "ENDED") => CallStatus.ended
  | some (Json.str "ended") => CallStatus.ended
  | _ => CallStatus.missed

/-- The domain events EventParser produces.  `ts` is the `timestamp:
    Date.now()` field (the clock is passed in as `now`).  Fields whose
    source value is produced by a bare `as`-cast with no fallback are
    `Option Json` (they may be undefined); fields produced under a `||`
    fallback are `Json`.  The constant fields (`reactions: []`,
    `isUnread: true`, the `type` tag) are represented by the constructor
    itself. -/
inductive PEvent where
  | message (ts : Int) (threadId : Json) (senderId : Json) (messageId : Json)
      (body : Json) (msgTimestamp : Json) (attachments : List Json)
      (mentions : List Json) (isGroup : Bool)
  | messageReaction (ts : Int) (threadId : Json) (messageId : Json)
      (userId : Json) (reaction : Option ReactionKind)
  | typ (ts : Int) (threadId : Option Json) (userId : Option Json) (isTyping : Bool)
  | readReceipt (ts : Int) (threadId : Option Json) (userId : Option Json)
      (watermarkTimestamp : Option Json)
  | deliveryReceipt (ts : Int) (threadId : Option Json) (userId : Option Json)
      (deliveredTimestamp : Option Json)
  | presence (ts : Int) (userId : Option Json) (status : PresenceStatus)
      (lastActive : Option Json)
  | call (ts : Int) (callId : Option Json) (threadId : Option Json)
      (callerId : Option Json) (isVideo : Json) (isGroupCall : Json)
      (status : CallStatus) (duration : Option Json)
  | threadRename (ts : Int) (threadId : Json) (author : Option Json)
      (name : Option Json)
  | threadColor (ts : Int) (threadId : Json) (author : Option Json)
      (color : Option Json)
  | threadEmoji (ts : Int) (threadId : Json) (author : Option Json)
      (emoji : Option Json)
  | threadImage (ts : Int) (threadId : Json) (author : Option Json)
      (imageUrl : Option Json)
  | threadNickname (ts : Int) (threadId : Json) (author : Option Json)
      (participantId : Option Json) (nickname : Option Json)
  | threadAddParticipants (ts : Int) (threadId : Json) (author : Option Json)
      (participantIds : Option Json)
  | threadRemoveParticipants (ts : Int) (threadId : Json) (author : Option Json)
      (participantIds : Option Json)
  | threadPromote (ts : Int) (threadId : Json) (author : Option Json)
      (participantIds : Option Json)
  | threadDemote (ts : Int) (threadId : Json) (author : Option Json)
      (participantIds : Option Json)
  | threadLeave (ts : Int) (threadId : Json) (userId : Option Json)

/-- The threadId carried by an event (none for events without one). -/
def eventThreadId : PEvent → Option Json
  | PEvent.message _ tid _ _ _ _ _ _ _ => some tid
  | PEvent.messageReaction _ tid _ _ _ => some tid
  | PEvent.typ _ tidF _ _ => tidF
  | PEvent.readReceipt _ tidF _ _ => tidF
  | PEvent.deliveryReceipt _ tidF _ _ => tidF
  | PEvent.presence _ _ _ _ => none
  | PEvent.call _ _ tidF _ _ _ _ _ => tidF
  | PEvent.threadRename _ tid _ _ => some tid
  | PEvent.threadColor _ tid _ _ => some tid
  | PEvent.threadEmoji _ tid _ _ => some tid
  | PEvent.threadImage _ tid _ _ => some tid
  | PEvent.threadNickname _ tid _ _ _ => some tid
  | PEvent.threadAddParticipants _ tid _ _ => some tid
  | PEvent.threadRemoveParticipants _ tid _ _ => some tid
  | PEvent.threadPromote _ tid _ _ => some tid
  | PEvent.threadDemote _ tid _ _ => some tid
  | PEvent.threadLeave _ tid _ => some tid

/-- EventParser.parseDelta. -/
def parseDelta (now : Int) (delta : Json) : Except String (Option PEvent) := do
  let mmF ← jAccess (some delta) "messageMetadata"
  if jTruthyOpt mmF then
    let mm := mmF.getD Json.null
    let tkF := jFieldP mm "threadKey"
    match extractThreadId tkF with
    | none => pure none
    | some threadId =>
      let isGroup := jTruthyOpt (jOptChain tkF "threadFbId")
      pure (some (PEvent.message now threadId
        (jOrElse (jFieldP mm "actorFbId") (Json.str ""))
        (jOrElse (jFieldP mm "messageId") (Json.str ("msg_" ++ toString now)))
        (jOrElse (jFieldP delta "body") (Json.str ""))
        (jOrElse (jFieldP mm "timestamp") (Json.num now))
        (parseAttachments delta) (parseMentions delta) isGroup))
  else
    let reactionF := jFieldP delta "reaction"
    if jTruthyOpt reactionF then
      let reaction := reactionF.getD Json.null
      let tkF := jFieldP delta "threadKey"
      match extractThreadId tkF with
      | none => pure none
      | some threadId =>
        pure (some (PEvent.messageReaction now threadId
          (jOrElse (jFieldP reaction "messageId") (Json.str ""))
          (jOrElse (jFieldP delta "actorFbId") (Json.str ""))
          (mapReaction (jOrElse (jFieldP reaction "reaction") (Json.str "")))))
    else pure none

/-- The for-loop over a deltas array in EventParser.parseMessageSync:
    returns the first non-null parse. -/
def parseDeltaList (now : Int) : List Json → Except String (Option PEvent)
  | [] => pure none
  | d :: rest => do
    let p ← parseDelta now d
    match p with
    | some e => pure (some e)
    | none => parseDeltaList now rest

/-- EventParser.parseDirectDelta. -/
def parseDirectDelta (now : Int) (data : Json) : Except String (Option PEvent) := do
  let mmF ← jAccess (some data) "messageMetadata"
  if jTruthyOpt mmF then
    let mm := mmF.getD Json.null
    let tkF := jFieldP mm "threadKey"
    match extractThreadId tkF with
    | none => pure none
    | some threadId =>
      let isGroup := jTruthyOpt (jOptChain tkF "threadFbId")
      pure (some (PEvent.message now threadId
        (jOrElse (jFieldP mm "actorFbId") (Json.str ""))
        (jOrElse (jFieldP mm "messageId") (Json.str ("msg_" ++ toString now)))
        (jOrElse (jFieldP data "body") (Json.str ""))
        (jOrElse (jFieldP mm "timestamp") (Json.num now))
        (parseAttachments data) (parseMentions data) isGroup))
  else pure none

/-- EventParser.parseMessageSync. -/
def parseMessageSync (now : Int) (data : Json) : Except String (Option PEvent) := do
  let deltasF ← jAccess (some data) "deltas"
  let fromList ←
    match deltasF with
    | some (Json.arr ds) => parseDeltaList now ds
    | _ => pure none
  match fromList with
  | some e => pure (some e)
  | none =>
    let deltaF := jFieldP data "delta"
    if jTruthyOpt deltaF then parseDelta now (deltaF.getD Json.null)
    else
      if jTruthyOpt (jFieldP data "messageMetadata") then parseDirectDelta now data
      else pure none

/-- EventParser.parseC2BEvent. -/
def parseC2BEvent (now : Int) (data : Json) : Except String (Option PEvent) :=
  parseMessageSync now data

/-- EventParser.parseRTCEvent. -/
def parseRTCEvent (now : Int) (data : Json) : Except String (Option PEvent) := do
  let csF ← jAccess (some data) "callState"
  if jTruthyOpt csF then
    pure (some (PEvent.call now (jFieldP data "callId") (jFieldP data "threadId")
      (jFieldP data "callerId")
      (jOrElse (jFieldP data "isVideoCall") (Json.bool false))
      (jOrElse (jFieldP data "isGroupCall") (Json.bool false))
      (mapCallState csF) (jFieldP data "duration")))
  else pure none

/-- EventParser.parsePresence. -/
def parsePresence (now : Int) (data : Json) : Except String (Option PEvent) := do
  let uidF ← jAccess (some data) "userId"
  pure (some (PEvent.presence now uidF
    (mapPresenceStatus (jFieldP data "status"))
    (jFieldP data "lastActive")))

/-- EventParser.parseTypingNotification (isTyping is the strict comparison
    typingStatus === 1). -/
def parseTypingNotification (now : Int) (data : Json) : Except String (Option PEvent) := do
  let tidF ← jAccess (some data) "threadId"
  pure (some (PEvent.typ now tidF (jFieldP data "senderId")
    (match jFieldP data "typingStatus" with
     | some (Json.num 1) => true
     | _ => false)))

/-- EventParser.parseMessagingEvent. -/
def parseMessagingEvent (now : Int) (data : Json) : Except String (Option PEvent) := do
  let rrF ← jAccess (some data) "readReceipt"
  if jTruthyOpt rrF then
    let receipt := rrF.getD Json.null
    pure (some (PEvent.readReceipt now (jFieldP receipt "threadId")
      (jFieldP receipt "actorFbId") (jFieldP receipt "watermarkTimestamp")))
  else
    let drF := jFieldP data "deliveryReceipt"
    if jTruthyOpt drF then
      let receipt := drF.getD Json.null
      pure (some (PEvent.deliveryReceipt now (jFieldP receipt "threadId")
        (jFieldP receipt "actorFbId") (jFieldP receipt "deliveredTimestamp")))
    else pure none

/-- EventParser.parseGraphQLEvent: each of the ten delta keys builds its
    event with threadId `threadKey?.threadFbId || ''`. -/
def parseGraphQLEvent (now : Int) (data : Json) : Except String (Option PEvent) := do
  let gqlThreadId (delta : Json) : Json :=
    jOrElse (jOptChain (jFieldP delta "threadKey") "threadFbId") (Json.str "")
  let f1 ← jAccess (some data) "deltaThreadName"
  if jTruthyOpt f1 then
    let delta := f1.getD Json.null
    pure (some (PEvent.threadRename now (gqlThreadId delta)
      (jFieldP delta "actorFbId") (jFieldP delta "name")))
  else
    let f2 := jFieldP data "deltaThreadColor"
    if jTruthyOpt f2 then
      let delta := f2.getD Json.null
      pure (some (PEvent.threadColor now (gqlThreadId delta)
        (jFieldP delta "actorFbId") (jFieldP delta "color")))
    else
      let f3 := jFieldP data "deltaThreadIcon"
      if jTruthyOpt f3 then
        let delta := f3.getD Json.null
        pure (some (PEvent.threadEmoji now (gqlThreadId delta)
          (jFieldP delta "actorFbId") (jFieldP delta "emoji")))
      else
        let f4 := jFieldP data "deltaThreadImage"
        if jTruthyOpt f4 then
          let delta := f4.getD Json.null
          pure (some (PEvent.threadImage now (gqlThreadId delta)
            (jFieldP delta "actorFbId") (jFieldP delta "imageUrl")))
        else
          let f5 := jFieldP data "deltaNickname"
          if jTruthyOpt f5 then
            let delta := f5.getD Json.null
            pure (some (PEvent.threadNickname now (gqlThreadId delta)
              (jFieldP delta "actorFbId") (jFieldP delta "participantId")
              (jFieldP delta "nickname")))
          else
            let f6 := jFieldP data "deltaParticipantsAdded"
            if jTruthyOpt f6 then
              let delta := f6.getD Json.null
              pure (some (PEvent.threadAddParticipants now (gqlThreadId delta)
                (jFieldP delta "actorFbId") (jFieldP delta "participantIds")))
            else
              let f7 := jFieldP data "deltaParticipantsRemoved"
              if jTruthyOpt f7 then
                let delta := f7.getD Json.null
                pure (some (PEvent.threadRemoveParticipants now (gqlThreadId delta)
                  (jFieldP delta "actorFbId") (jFieldP delta "participantIds")))
              else
                let f8 := jFieldP data "deltaAdminAdded"
                if jTruthyOpt f8 then
                  let delta := f8.getD Json.null
                  pure (some (PEvent.threadPromote now (gqlThreadId delta)
                    (jFieldP delta "actorFbId") (jFieldP delta "participantIds")))
                else
                  let f9 := jFieldP data "deltaAdminRemoved"
                  if jTruthyOpt f9 then
                    let delta := f9.getD Json.null
                    pure (some (PEvent.threadDemote now (gqlThreadId delta)
                      (jFieldP delta "actorFbId") (jFieldP delta "participantIds")))
                  else
                    let f10 := jFieldP data "deltaLeftThread"
                    if jTruthyOpt f10 then
                      let delta := f10.getD Json.null
                      pure (some (PEvent.threadLeave now (gqlThreadId delta)
                        (jFieldP delta "actorFbId")))
                    else pure none

/-- String.prototype.startsWith. -/
def strStartsWith (s pre : String) : Bool :=
  pre.data.isPrefixOf s.data

/-- EventParser.parse: the topic dispatch with its single
    startsWith("/mqtt_c2b_") rule, a thrown TypeError anywhere inside
    being caught and turned into null. -/
def parse (now : Int) (topic : String) (data : Json) : Option PEvent :=
  let r : Except String (Option PEvent) :=
    if topic = "/t_ms" then parseMessageSync now data
    else if topic = "/t_rtc" then parseRTCEvent now data
    else if topic = "/t_p" then parsePresence now data
    else if topic = "/t_tn" then parseTypingNotification now data
    else if topic = "/t_graphql" then parseGraphQLEvent now data
    else if topic = "/t_messaging_events" then parseMessagingEvent now data
    else if strStartsWith topic "/mqtt_c2b_" then parseC2BEvent now data
    else Except.ok none
  match r with
  | Except.ok v => v
  | Except.error _ => none

/-
  Spec-side reference definitions and concrete instances used by the
  claims.
-/

/-- Modelled from the spec (refinement reference): the PUBLISH frame
    layout exactly as the spec words it — fixed header byte, remaining
    length, 2-byte-length-prefixed topic, a 2-byte packet id iff qos > 0,
    then the raw payload. -/
def specEncodePublish (m : MQTTMessage) (pid : Nat) : List Nat :=
  (0x30 ||| (m.qos <<< 1) ||| (if m.retain then 1 else 0)) ::
    (encodeRemainingLength
      (2 + m.topic.length + (if 0 < m.qos then 2 else 0) + m.payload.length) ++
     uint16BE m.topic.length ++ m.topic ++
     (if 0 < m.qos then uint16BE pid else []) ++ m.payload)

/-- Modelled from the spec: the thread-id extraction rule as quoted —
    the group thread-id field when present, else the other-user-id field,
    else no attribution. -/
def specThreadIdRule (gid oid : Option String) : Option String :=
  match gid with
  | some g => some g
  | none => oid

/-- A thread key carrying an optional group id and an optional 1-1 other
    user id. -/
def mkThreadKey (gid oid : Option String) : Json :=
  Json.obj ((gid.map (fun g => ("threadFbId", Json.str g))).toList ++
            (oid.map (fun o => ("otherUserFbId", Json.str o))).toList)

/-- A message-sync payload with one delta around the given thread key. -/
def msgSyncPayload (tk : Json) : Json :=
  Json.obj [("delta", Json.obj [
    ("messageMetadata", Json.obj [
      ("threadKey", tk), ("actorFbId", Json.str "9"),
      ("messageId", Json.str "m1"), ("timestamp", Json.num 1000)]),
    ("body", Json.str "hi")])]

/-- A message-sync payload with one reaction delta around the given
    thread key. -/
def reactionPayload (tk : Json) : Json :=
  Json.obj [("delta", Json.obj [
    ("reaction", Json.obj [("messageId", Json.str "m1"), ("reaction", Json.str "👍")]),
    ("threadKey", tk), ("actorFbId", Json.str "9")])]

/-- A direct message payload (metadata at top level) around the given
    thread key. -/
def directPayload (tk : Json) : Json :=
  Json.obj [("messageMetadata", Json.obj [
      ("threadKey", tk), ("actorFbId", Json.str "9"),
      ("messageId", Json.str "m1"), ("timestamp", Json.num 1000)]),
    ("body", Json.str "hi")]

/-- The ten graphql-delta keys of parseGraphQLEvent, in source order. -/
def gqlDeltaKeys : List String :=
  ["deltaThreadName", "deltaThreadColor", "deltaThreadIcon", "deltaThreadImage",
   "deltaNickname", "deltaParticipantsAdded", "deltaParticipantsRemoved",
   "deltaAdminAdded", "deltaAdminRemoved", "deltaLeftThread"]

/-- A single-key graphql-delta payload around the given thread key. -/
def gqlPayload (k : String) (tk : Json) : Json :=
  Json.obj [(k, Json.obj [("threadKey", tk), ("actorFbId", Json.str "9")])]

/-- The hand-built PUBLISH frame of the spec's test: fixed header 0x32
    (PUBLISH, QoS 1), remaining length 16, topic length 5, topic "/t_ms",
    packet id 7, payload the JSON text of x mapped to 1. -/
def publishFrameExample : List Nat :=
  [0x32, 16, 0, 5] ++ strBytes "/t_ms" ++ [0, 7] ++ strBytes "\x7b\"x\":1\x7d"

/-- A connected steady state (socket open, keep-alive running, no
    pending work). -/
def stConnected : ClientState :=
  ⟨true, true, false, 0, false, true, 0, [], [], [], [], [], []⟩

/-- A connected state whose packet-id counter is one step before the
    65536 wrap. -/
def stWrap : ClientState :=
  ⟨true, true, false, 0, false, true, 65535, [], [], [], [], [], []⟩

/-- A disconnected state whose reconnect budget is exhausted. -/
def stExhausted : ClientState :=
  ⟨false, false, false, 10, false, false, 0, [], [], [], [], [], []⟩

/-- An exhausted state whose socket object is still present. -/
def stExhaustedOpen : ClientState :=
  ⟨true, false, false, 10, false, false, 0, [], [], [], [], [], []⟩

/-- A one-byte-topic QoS 1 message. -/
def qos1Msg : MQTTMessage := ⟨strBytes "t", [], 1, false⟩

/-- Three QoS 0 messages used to exercise the outbound queue. -/
def msgA : MQTTMessage := ⟨strBytes "a", [1], 0, false⟩

/-- Second queued message. -/
def msgB : MQTTMessage := ⟨strBytes "b", [2], 0, false⟩

/-- Third queued message. -/
def msgC : MQTTMessage := ⟨strBytes "c", [3], 0, false⟩

/-
  Supporting lemmas.
-/

/-- Bit identities for one base-128 digit. -/
theorem rl_bit_facts : ∀ d, d < 128 →
    d &&& 128 = 0 ∧ d &&& 127 = d ∧ (d ||| 128) = d + 128 ∧
    (d + 128) &&& 128 = 128 ∧ (d + 128) &&& 127 = d := by decide

/-- The encoder emits at least one byte. -/
theorem encodeRLAux_length_pos (fuel n : Nat) : 1 ≤ (encodeRLAux n fuel).length := by
  cases fuel with
  | zero => simp [encodeRLAux]
  | succ f =>
    simp only [encodeRLAux]
    split <;> simp

/-- The decoding loop inverts the encoder at any multiplier. -/
theorem decodeRLLoop_encodeRLAux (fuel : Nat) : ∀ n mult, n ≤ fuel →
    decodeRLLoop (encodeRLAux n fuel) mult = (n * mult, (encodeRLAux n fuel).length) := by
  induction fuel with
  | zero =>
    intro n mult hn
    interval_cases n
    simp [encodeRLAux, decodeRLLoop]
  | succ f ih =>
    intro n mult hn
    simp only [encodeRLAux]
    by_cases h : 0 < n / 128
    · have hlt : n / 128 < n :=
        Nat.div_lt_self (Nat.lt_of_lt_of_le h (Nat.div_le_self n 128)) (by norm_num)
      have hle : n / 128 ≤ f := by omega
      have hd := rl_bit_facts (n % 128) (Nat.mod_lt _ (by norm_num))
      simp only [if_pos h, decodeRLLoop, hd.2.2.1, hd.2.2.2.1, hd.2.2.2.2]
      simp only [ne_eq, OfNat.ofNat_ne_zero, not_false_eq_true, if_pos]
      rw [ih (n / 128) (mult * 128) hle]
      simp only [Prod.mk.injEq, List.length_cons]
      constructor
      · have h128 : 128 * (n / 128) + n % 128 = n := Nat.div_add_mod n 128
        have hexp : n % 128 * mult + n / 128 * (mult * 128) =
            (128 * (n / 128) + n % 128) * mult := by ring
        rw [hexp, h128]
      · trivial
    · have hd := rl_bit_facts (n % 128) (Nat.mod_lt _ (by norm_num))
      simp only [if_neg h, decodeRLLoop, hd.1, hd.2.1]
      simp only [ne_eq, not_true_eq_false, if_neg, not_false_eq_true]
      have : n % 128 = n := by omega
      simp [this]

/-- Length bound of the encoder: n below 128 ^ (k+1) takes at most k+1
    bytes. -/
theorem encodeRLAux_length_le (fuel : Nat) : ∀ n k, n ≤ fuel → n < 128 ^ (k + 1) →
    (encodeRLAux n fuel).length ≤ k + 1 := by
  induction fuel with
  | zero => intro n k hn hk; simp [encodeRLAux]
  | succ f ih =>
    intro n k hn hk
    simp only [encodeRLAux]
    by_cases h : 0 < n / 128
    · have hlt : n / 128 < n :=
        Nat.div_lt_self (Nat.lt_of_lt_of_le h (Nat.div_le_self n 128)) (by norm_num)
      have hle : n / 128 ≤ f := by omega
      cases k with
      | zero =>
        exfalso
        have : n < 128 := by simpa using hk
        omega
      | succ k1 =>
        have hdiv : n / 128 < 128 ^ (k1 + 1) := by
          have he : (128 : Nat) ^ (k1 + 1 + 1) = 128 * 128 ^ (k1 + 1) := by ring
          exact Nat.div_lt_of_lt_mul (by omega)
        simp only [if_pos h, List.length_cons]
        have := ih (n / 128) k1 hle hdiv
        omega
    · simp [if_neg h]

/-- Every byte but the last is the base-128 digit with the continuation
    bit added. -/
theorem encodeRLAux_getD_lt (fuel : Nat) : ∀ n i, n ≤ fuel →
    i + 1 < (encodeRLAux n fuel).length →
    (encodeRLAux n fuel).getD i 0 = n / 128 ^ i % 128 + 128 := by
  induction fuel with
  | zero =>
    intro n i hn hi
    simp [encodeRLAux] at hi
  | succ f ih =>
    intro n i hn hi
    simp only [encodeRLAux] at hi ⊢
    by_cases h : 0 < n / 128
    · have hlt : n / 128 < n :=
        Nat.div_lt_self (Nat.lt_of_lt_of_le h (Nat.div_le_self n 128)) (by norm_num)
      have hle : n / 128 ≤ f := by omega
      have hd := rl_bit_facts (n % 128) (Nat.mod_lt _ (by norm_num))
      simp only [if_pos h, hd.2.2.1] at hi ⊢
      cases i with
      | zero => simp
      | succ i1 =>
        simp only [List.getD_cons_succ]
        simp only [List.length_cons] at hi
        rw [ih (n / 128) i1 hle (by omega)]
        have : n / 128 / 128 ^ i1 = n / 128 ^ (i1 + 1) := by
          rw [Nat.div_div_eq_div_mul]
          ring_nf
        rw [this]
    · simp only [if_neg h] at hi
      simp at hi

/-- The last byte is the most significant base-128 digit, continuation
    bit clear. -/
theorem encodeRLAux_getD_last (fuel : Nat) : ∀ n, n ≤ fuel →
    (encodeRLAux n fuel).getD ((encodeRLAux n fuel).length - 1) 0 =
      n / 128 ^ ((encodeRLAux n fuel).length - 1) % 128 := by
  induction fuel with
  | zero =>
    intro n hn
    interval_cases n
    simp [encodeRLAux]
  | succ f ih =>
    intro n hn
    simp only [encodeRLAux]
    by_cases h : 0 < n / 128
    · have hlt : n / 128 < n :=
        Nat.div_lt_self (Nat.lt_of_lt_of_le h (Nat.div_le_self n 128)) (by norm_num)
      have hle : n / 128 ≤ f := by omega
      have hd := rl_bit_facts (n % 128) (Nat.mod_lt _ (by norm_num))
      have hpos := encodeRLAux_length_pos f (n / 128)
      simp only [if_pos h, hd.2.2.1, List.length_cons]
      have hidx : (encodeRLAux (n / 128) f).length + 1 - 1 =
          ((encodeRLAux (n / 128) f).length - 1) + 1 := by omega
      rw [hidx, List.getD_cons_succ, ih (n / 128) hle]
      have : n / 128 / 128 ^ ((encodeRLAux (n / 128) f).length - 1) =
          n / 128 ^ (((encodeRLAux (n / 128) f).length - 1) + 1) := by
        rw [Nat.div_div_eq_div_mul]
        ring_nf
      rw [this]
    · simp [if_neg h]

/-- The subscribeToTopics loop on a live connection: one SUBSCRIBE frame
    per topic in order, the packet-id counter threaded left to right. -/
theorem subsFold_eq (ts : List (List Nat)) :
    ∀ (cg : Bool) (ra : Nat) (rt ka : Bool) (lp : Nat) (pa : List Nat)
      (mq : List MQTTMessage) (sf : List (List Nat)) (em : List Emitted)
      (ar arj : List Nat),
    subsFold ⟨true, true, cg, ra, rt, ka, lp, pa, mq, sf, em, ar, arj⟩ ts =
      ⟨true, true, cg, ra, rt, ka, (subsSpec lp ts).2, pa, mq,
        sf ++ (subsSpec lp ts).1, em, ar, arj⟩ := by
  induction ts with
  | nil => intro cg ra rt ka lp pa mq sf em ar arj; simp [subsFold, subsSpec]
  | cons t rest ih =>
    intro cg ra rt ka lp pa mq sf em ar arj
    simp only [subsFold, subscribeOp, wsSend, advancePacketId]
    simp only [not_true, or_self, if_neg, not_false_eq_true, if_true, ite_true,
      Bool.not_eq_true]
    simp only [ih]
    simp [subsSpec, List.append_assoc]

/-- The processMessageQueue loop on a live connection: the whole queue is
    sent through sendPublish in order, leaving the queue empty. -/
theorem processQueueGo_eq (q : List MQTTMessage) :
    ∀ (cg : Bool) (ra : Nat) (rt ka : Bool) (lp : Nat) (pa : List Nat)
      (sf : List (List Nat)) (em : List Emitted) (ar arj : List Nat),
    processQueueGo ⟨true, true, cg, ra, rt, ka, lp, pa, q, sf, em, ar, arj⟩ q.length =
      ⟨true, true, cg, ra, rt, ka, (flushSpec lp pa q).2.1, (flushSpec lp pa q).2.2, [],
        sf ++ (flushSpec lp pa q).1, em, ar, arj⟩ := by
  induction q with
  | nil => intro cg ra rt ka lp pa sf em ar arj; simp [processQueueGo, flushSpec]
  | cons m rest ih =>
    intro cg ra rt ka lp pa sf em ar arj
    simp only [List.length_cons, processQueueGo, sendPublishOp, wsSend, advancePacketId]
    by_cases hq : 0 < m.qos
    · by_cases hz : (lp + 1) % 65536 = 0
      · simp [hq, hz, ih, flushSpec, List.append_assoc]
      · simp [hq, hz, ih, flushSpec, List.append_assoc]
    · simp [hq, ih, flushSpec, List.append_assoc]

/-- Full effect of a successful CONNACK on a state whose socket is open. -/
theorem handleConnAck_success_eq (uid : String) :
    ∀ (co cg : Bool) (ra : Nat) (rt ka : Bool) (lp : Nat) (pa : List Nat)
      (mq : List MQTTMessage) (sf : List (List Nat)) (em : List Emitted)
      (ar arj : List Nat),
    handleConnAckOp uid ⟨true, co, cg, ra, rt, ka, lp, pa, mq, sf, em, ar, arj⟩ 0 =
      ⟨true, true, false, 0, rt, true,
        (flushSpec (subsSpec lp ((clientTopics uid).map strBytes)).2 pa mq).2.1,
        (flushSpec (subsSpec lp ((clientTopics uid).map strBytes)).2 pa mq).2.2, [],
        sf ++ (subsSpec lp ((clientTopics uid).map strBytes)).1 ++
          (flushSpec (subsSpec lp ((clientTopics uid).map strBytes)).2 pa mq).1,
        em ++ [Emitted.connectEv], ar, arj⟩ := by
  intro co cg ra rt ka lp pa mq sf em ar arj
  simp only [handleConnAckOp, if_pos rfl, startKeepAliveOp, subscribeToTopicsOp,
    processMessageQueueOp]
  rw [subsFold_eq]
  rw [processQueueGo_eq]
  simp [List.append_assoc]

/-- For a nonzero packet id, buildPublishPacket realizes the layout the
    spec describes. -/
theorem publish_id_layout (m : MQTTMessage) (pid : Nat) (hp : 0 < pid) :
    buildPublishPacket m (some pid) = specEncodePublish m pid := by
  have hpz : pid ≠ 0 := Nat.pos_iff_ne_zero.mp hp
  by_cases hq : 0 < m.qos
  · simp only [buildPublishPacket, specEncodePublish, Option.getD_some, hq, hpz,
      ne_eq, not_false_eq_true, and_self, if_pos, if_true, ite_true, true_and]
    have hlen : ((uint16BE m.topic.length ++ m.topic) ++ uint16BE pid).length +
        m.payload.length =
        2 + m.topic.length + (if 0 < m.qos then 2 else 0) + m.payload.length := by
      simp [uint16BE, hq]
      omega
    rw [hlen]
    simp [List.append_assoc, hq]
  · simp only [buildPublishPacket, specEncodePublish, hq, false_and, if_neg,
      not_false_eq_true, ite_false, if_false, false_or]
    have hlen : (uint16BE m.topic.length ++ m.topic).length + m.payload.length =
        2 + m.topic.length + (if 0 < m.qos then 2 else 0) + m.payload.length := by
      simp [uint16BE, hq]
      omega
    rw [hlen]
    simp [List.append_assoc, hq]

/-- ws?.send leaves the packet-id counter alone. -/
theorem wsSend_lastPacketId (st : ClientState) (f : List Nat) :
    (wsSend st f).lastPacketId = st.lastPacketId := by
  by_cases h : st.wsPresent <;> simp [wsSend, h]

/-- The flush specification emits exactly one frame per queued message. -/
theorem flushSpec_length : ∀ (q : List MQTTMessage) (ctr : Nat) (acks : List Nat),
    ((flushSpec ctr acks q).1).length = q.length := by
  intro q
  induction q with
  | nil => intro ctr acks; simp [flushSpec]
  | cons m rest ih =>
    intro ctr acks
    by_cases hq : 0 < m.qos <;> simp [flushSpec, hq, ih]

/-- The subscription specification emits one frame per topic. -/
theorem subsSpec_length : ∀ (ts : List (List Nat)) (ctr : Nat),
    ((subsSpec ctr ts).1).length = ts.length := by
  intro ts
  induction ts with
  | nil => intro ctr; simp [subsSpec]
  | cons t rest ih => intro ctr; simp [subsSpec, ih]

/-- publish() while disconnected appends to the queue in call order and
    stays disconnected. -/
theorem publishFold_queue : ∀ (msgs : List MQTTMessage) (st : ClientState),
    st.connected = false →
    ((msgs.foldl (fun s m => publishOp s m.topic m.payload m.qos m.retain) st).messageQueue
        = st.messageQueue ++ msgs) ∧
    ((msgs.foldl (fun s m => publishOp s m.topic m.payload m.qos m.retain) st).connected
        = false) := by
  intro msgs
  induction msgs with
  | nil => intro st h; simpa using h
  | cons m rest ih =>
    intro st h
    simp only [List.foldl_cons]
    have hstep : publishOp st m.topic m.payload m.qos m.retain =
        { st with messageQueue := st.messageQueue ++ [m] } := by
      simp [publishOp, h]
    rw [hstep]
    have := ih { st with messageQueue := st.messageQueue ++ [m] } (by simp [h])
    simpa [List.append_assoc] using this

/-
  Claim theorems.
-/

/-- C1: the spec's hand-built PUBLISH frame (topic "/t_ms", QoS 1, packet
    id 7, payload the JSON text mapping x to 1) is exactly what the
    encoder produces, yet parsePublishPacket fails on it: the
    remaining-length loop starts at byte 2 instead of byte 1, so the frame
    whose remaining-length field is a single byte is misread (topic length
    1327) and the packet-id read falls past the end of the buffer, which
    throws.  The claim that decode recovers topic, qos, packetId and
    payload therefore fails on this frame. -/
theorem publish_frame_decode_fails :
    publishFrameExample =
      buildPublishPacket ⟨strBytes "/t_ms", strBytes "\x7b\"x\":1\x7d", 1, false⟩ (some 7) ∧
    parsePublishPacket publishFrameExample = none := by
  constructor <;> decide

/-- C2: after an explicit disconnect() from a connected steady state —
    which does cancel both timers and clears the flags — the transport
    close event that disconnect() itself provokes runs handleClose, and
    handleClose schedules a reconnect (attempt counter 1, reconnect timer
    pending), because nothing records that the disconnect was explicit.
    This refutes the claim that no automatic reconnect is scheduled after
    disconnect(). -/
theorem disconnect_then_close_schedules_reconnect :
    (disconnectOp stConnected).reconnectTimerSet = false ∧
    (disconnectOp stConnected).keepAliveTimerSet = false ∧
    (disconnectOp stConnected).connected = false ∧
    (handleCloseOp (disconnectOp stConnected)).reconnectTimerSet = true ∧
    (handleCloseOp (disconnectOp stConnected)).reconnectAttempts = 1 := by
  decide

/-- C3 counterexample: when the cyclic counter wraps to packet id 0, the
    QoS 1 PUBLISH frame sendPublish emits is byte-identical to the frame
    built with no packet id at all — the two id bytes are missing — and no
    acknowledgment is tracked, refuting "the frame contains the packet id
    field iff qos > 0". -/
theorem wrapped_packet_id_omitted_cex :
    (sendPublishOp stWrap qos1Msg).1.lastPacketId = 0 ∧
    (sendPublishOp stWrap qos1Msg).1.sentFrames = [buildPublishPacket qos1Msg (some 0)] ∧
    buildPublishPacket qos1Msg (some 0) = buildPublishPacket qos1Msg none ∧
    buildPublishPacket qos1Msg (some 0) = [0x32, 3, 0, 1, 116] ∧
    (sendPublishOp stWrap qos1Msg).2 = none := by
  decide

/-- C3 amended: for every allocated packet id other than 0, the encoded
    PUBLISH frame carries the 2-byte packet id field iff the message's
    qos is positive (the frame equals the spec layout), and the counter
    advances by 1 modulo 65536 on every QoS 1 publish and on every
    SUBSCRIBE. -/
theorem publish_packet_id_iff_qos_amended (m : MQTTMessage) (pid : Nat) (hp : 0 < pid) :
    buildPublishPacket m (some pid) = specEncodePublish m pid ∧
    (∀ st : ClientState, 0 < m.qos →
      ((sendPublishOp st m).1).lastPacketId = (st.lastPacketId + 1) % 65536) ∧
    (∀ st : ClientState, st.connected = true → st.wsPresent = true →
      ∃ st1, subscribeOp st m.topic 1 = Except.ok st1 ∧
        st1.lastPacketId = (st.lastPacketId + 1) % 65536) := by
  refine ⟨publish_id_layout m pid hp, ?_, ?_⟩
  · intro st hq
    by_cases hz : (st.lastPacketId + 1) % 65536 = 0 <;>
      simp [sendPublishOp, advancePacketId, hq, hz, wsSend_lastPacketId]
  · intro st hc hw
    exact ⟨wsSend (advancePacketId st)
        (buildSubscribePacket ((st.lastPacketId + 1) % 65536) m.topic 1),
      by simp [subscribeOp, hc, hw, advancePacketId],
      by simp [wsSend_lastPacketId, advancePacketId]⟩

/-- C3 witness: the amended claim applied at the concrete QoS 1 message
    and packet id 7. -/
theorem publish_packet_id_iff_qos_amended_witness :
    0 < 7 ∧ buildPublishPacket qos1Msg (some 7) = specEncodePublish qos1Msg 7 :=
  ⟨by decide, (publish_packet_id_iff_qos_amended qos1Msg 7 (by decide)).1⟩

/-- C4 counterexample: a graphql-delta rename whose thread key carries
    only the other-user-id field yields an event whose threadId is the
    empty string, not the other-user id "42" the rule demands (and not a
    none parse). -/
theorem graphql_thread_id_ignores_other_user_cex :
    parse 0 "/t_graphql" (gqlPayload "deltaThreadName" (mkThreadKey none (some "42"))) =
      some (PEvent.threadRename 0 (Json.str "") (some (Json.str "9")) none) ∧
    Json.str "" ≠ Json.str "42" := by
  constructor
  · rfl
  · simp

/-- C4 amended: the thread-id extraction rule (group thread-id field when
    present, else the other-user-id field, else a none parse) governs the
    message-sync thread-key reads — delta messages, delta reactions and
    direct messages — but every graphql-delta sub-parse instead uses only
    the group thread-id field and defaults the event's threadId to the
    empty string when that field is absent, never falling back to the
    other-user id and never yielding none for a missing key.  Thread-key
    fields, when present, are nonempty id strings. -/
theorem thread_id_rule_amended (now : Int) (gid oid : Option String)
    (hg : gid ≠ some "") (ho : oid ≠ some "") :
    (parse now "/t_ms" (msgSyncPayload (mkThreadKey gid oid)) =
      match specThreadIdRule gid oid with
      | none => none
      | some tid => some (PEvent.message now (Json.str tid) (Json.str "9")
          (Json.str "m1") (Json.str "hi") (Json.num 1000) [] [] gid.isSome)) ∧
    (parse now "/t_ms" (reactionPayload (mkThreadKey gid oid)) =
      match specThreadIdRule gid oid with
      | none => none
      | some tid => some (PEvent.messageReaction now (Json.str tid) (Json.str "m1")
          (Json.str "9") (some ReactionKind.like))) ∧
    (parse now "/t_ms" (directPayload (mkThreadKey gid oid)) =
      match specThreadIdRule gid oid with
      | none => none
      | some tid => some (PEvent.message now (Json.str tid) (Json.str "9")
          (Json.str "m1") (Json.str "hi") (Json.num 1000) [] [] gid.isSome)) ∧
    (∀ k, k ∈ gqlDeltaKeys →
      (parse now "/t_graphql" (gqlPayload k (mkThreadKey gid oid))).map eventThreadId =
        some (some (Json.str (gid.getD "")))) := by
  rcases gid with _ | g
  · rcases oid with _ | o
    · refine ⟨by simp [parse, parseMessageSync, parseDelta, parseDirectDelta, parseDeltaList,
      parseGraphQLEvent, jAccess, jLookup, jFieldP, jTruthy, jTruthyOpt, jOrElse,
      jOptChain, extractThreadId, parseAttachments, parseMentions, mapReaction,
      mkThreadKey, msgSyncPayload, reactionPayload, directPayload, gqlPayload,
      specThreadIdRule, eventThreadId, strStartsWith, Bind.bind, Except.bind,
      pure, Except.pure, Option.map], by simp [parse, parseMessageSync, parseDelta, parseDirectDelta, parseDeltaList,
      parseGraphQLEvent, jAccess, jLookup, jFieldP, jTruthy, jTruthyOpt, jOrElse,
      jOptChain, extractThreadId, parseAttachments, parseMentions, mapReaction,
      mkThreadKey, msgSyncPayload, reactionPayload, directPayload, gqlPayload,
      specThreadIdRule, eventThreadId, strStartsWith, Bind.bind, Except.bind,
      pure, Except.pure, Option.map], by simp [parse, parseMessageSync, parseDelta, parseDirectDelta, parseDeltaList,
      parseGraphQLEvent, jAccess, jLookup, jFieldP, jTruthy, jTruthyOpt, jOrElse,
      jOptChain, extractThreadId, parseAttachments, parseMentions, mapReaction,
      mkThreadKey, msgSyncPayload, reactionPayload, directPayload, gqlPayload,
      specThreadIdRule, eventThreadId, strStartsWith, Bind.bind, Except.bind,
      pure, Except.pure, Option.map], ?_⟩
      intro k hk
      fin_cases hk <;> simp [parse, parseMessageSync, parseDelta, parseDirectDelta, parseDeltaList,
      parseGraphQLEvent, jAccess, jLookup, jFieldP, jTruthy, jTruthyOpt, jOrElse,
      jOptChain, extractThreadId, parseAttachments, parseMentions, mapReaction,
      mkThreadKey, msgSyncPayload, reactionPayload, directPayload, gqlPayload,
      specThreadIdRule, eventThreadId, strStartsWith, Bind.bind, Except.bind,
      pure, Except.pure, Option.map]
    · have hos : o ≠ "" := by simpa using ho
      refine ⟨by simp [parse, parseMessageSync, parseDelta, parseDirectDelta, parseDeltaList,
      parseGraphQLEvent, jAccess, jLookup, jFieldP, jTruthy, jTruthyOpt, jOrElse,
      jOptChain, extractThreadId, parseAttachments, parseMentions, mapReaction,
      mkThreadKey, msgSyncPayload, reactionPayload, directPayload, gqlPayload,
      specThreadIdRule, eventThreadId, strStartsWith, Bind.bind, Except.bind,
      pure, Except.pure, Option.map, hos], by simp [parse, parseMessageSync, parseDelta, parseDirectDelta, parseDeltaList,
      parseGraphQLEvent, jAccess, jLookup, jFieldP, jTruthy, jTruthyOpt, jOrElse,
      jOptChain, extractThreadId, parseAttachments, parseMentions, mapReaction,
      mkThreadKey, msgSyncPayload, reactionPayload, directPayload, gqlPayload,
      specThreadIdRule, eventThreadId, strStartsWith, Bind.bind, Except.bind,
      pure, Except.pure, Option.map, hos],
        by simp [parse, parseMessageSync, parseDelta, parseDirectDelta, parseDeltaList,
      parseGraphQLEvent, jAccess, jLookup, jFieldP, jTruthy, jTruthyOpt, jOrElse,
      jOptChain, extractThreadId, parseAttachments, parseMentions, mapReaction,
      mkThreadKey, msgSyncPayload, reactionPayload, directPayload, gqlPayload,
      specThreadIdRule, eventThreadId, strStartsWith, Bind.bind, Except.bind,
      pure, Except.pure, Option.map, hos], ?_⟩
      intro k hk
      fin_cases hk <;> simp [parse, parseMessageSync, parseDelta, parseDirectDelta, parseDeltaList,
      parseGraphQLEvent, jAccess, jLookup, jFieldP, jTruthy, jTruthyOpt, jOrElse,
      jOptChain, extractThreadId, parseAttachments, parseMentions, mapReaction,
      mkThreadKey, msgSyncPayload, reactionPayload, directPayload, gqlPayload,
      specThreadIdRule, eventThreadId, strStartsWith, Bind.bind, Except.bind,
      pure, Except.pure, Option.map, hos]
  · have hgs : g ≠ "" := by simpa using hg
    rcases oid with _ | o
    · refine ⟨by simp [parse, parseMessageSync, parseDelta, parseDirectDelta, parseDeltaList,
      parseGraphQLEvent, jAccess, jLookup, jFieldP, jTruthy, jTruthyOpt, jOrElse,
      jOptChain, extractThreadId, parseAttachments, parseMentions, mapReaction,
      mkThreadKey, msgSyncPayload, reactionPayload, directPayload, gqlPayload,
      specThreadIdRule, eventThreadId, strStartsWith, Bind.bind, Except.bind,
      pure, Except.pure, Option.map, hgs], by simp [parse, parseMessageSync, parseDelta, parseDirectDelta, parseDeltaList,
      parseGraphQLEvent, jAccess, jLookup, jFieldP, jTruthy, jTruthyOpt, jOrElse,
      jOptChain, extractThreadId, parseAttachments, parseMentions, mapReaction,
      mkThreadKey, msgSyncPayload, reactionPayload, directPayload, gqlPayload,
      specThreadIdRule, eventThreadId, strStartsWith, Bind.bind, Except.bind,
      pure, Except.pure, Option.map, hgs],
        by simp [parse, parseMessageSync, parseDelta, parseDirectDelta, parseDeltaList,
      parseGraphQLEvent, jAccess, jLookup, jFieldP, jTruthy, jTruthyOpt, jOrElse,
      jOptChain, extractThreadId, parseAttachments, parseMentions, mapReaction,
      mkThreadKey, msgSyncPayload, reactionPayload, directPayload, gqlPayload,
      specThreadIdRule, eventThreadId, strStartsWith, Bind.bind, Except.bind,
      pure, Except.pure, Option.map, hgs], ?_⟩
      intro k hk
      fin_cases hk <;> simp [parse, parseMessageSync, parseDelta, parseDirectDelta, parseDeltaList,
      parseGraphQLEvent, jAccess, jLookup, jFieldP, jTruthy, jTruthyOpt, jOrElse,
      jOptChain, extractThreadId, parseAttachments, parseMentions, mapReaction,
      mkThreadKey, msgSyncPayload, reactionPayload, directPayload, gqlPayload,
      specThreadIdRule, eventThreadId, strStartsWith, Bind.bind, Except.bind,
      pure, Except.pure, Option.map, hgs]
    · have hos : o ≠ "" := by simpa using ho
      refine ⟨by simp [parse, parseMessageSync, parseDelta, parseDirectDelta, parseDeltaList,
      parseGraphQLEvent, jAccess, jLookup, jFieldP, jTruthy, jTruthyOpt, jOrElse,
      jOptChain, extractThreadId, parseAttachments, parseMentions, mapReaction,
      mkThreadKey, msgSyncPayload, reactionPayload, directPayload, gqlPayload,
      specThreadIdRule, eventThreadId, strStartsWith, Bind.bind, Except.bind,
      pure, Except.pure, Option.map, hgs, hos], by simp [parse, parseMessageSync, parseDelta, parseDirectDelta, parseDeltaList,
      parseGraphQLEvent, jAccess, jLookup, jFieldP, jTruthy, jTruthyOpt, jOrElse,
      jOptChain, extractThreadId, parseAttachments, parseMentions, mapReaction,
      mkThreadKey, msgSyncPayload, reactionPayload, directPayload, gqlPayload,
      specThreadIdRule, eventThreadId, strStartsWith, Bind.bind, Except.bind,
      pure, Except.pure, Option.map, hgs, hos],
        by simp [parse, parseMessageSync, parseDelta, parseDirectDelta, parseDeltaList,
      parseGraphQLEvent, jAccess, jLookup, jFieldP, jTruthy, jTruthyOpt, jOrElse,
      jOptChain, extractThreadId, parseAttachments, parseMentions, mapReaction,
      mkThreadKey, msgSyncPayload, reactionPayload, directPayload, gqlPayload,
      specThreadIdRule, eventThreadId, strStartsWith, Bind.bind, Except.bind,
      pure, Except.pure, Option.map, hgs, hos], ?_⟩
      intro k hk
      fin_cases hk <;> simp [parse, parseMessageSync, parseDelta, parseDirectDelta, parseDeltaList,
      parseGraphQLEvent, jAccess, jLookup, jFieldP, jTruthy, jTruthyOpt, jOrElse,
      jOptChain, extractThreadId, parseAttachments, parseMentions, mapReaction,
      mkThreadKey, msgSyncPayload, reactionPayload, directPayload, gqlPayload,
      specThreadIdRule, eventThreadId, strStartsWith, Bind.bind, Except.bind,
      pure, Except.pure, Option.map, hgs, hos]

/-- C4 witness: the amended rule applied at the concrete group thread key
    with id "123". -/
theorem thread_id_rule_amended_witness :
    (some "123" : Option String) ≠ some "" ∧ (none : Option String) ≠ some "" ∧
    parse 0 "/t_ms" (msgSyncPayload (mkThreadKey (some "123") none)) =
      match specThreadIdRule (some "123") none with
      | none => none
      | some tid => some (PEvent.message 0 (Json.str tid) (Json.str "9")
          (Json.str "m1") (Json.str "hi") (Json.num 1000) [] []
          (some "123" : Option String).isSome) :=
  ⟨by simp, by simp, (thread_id_rule_amended 0 (some "123") none (by simp) (by simp)).1⟩

/-- C5: the client subscribes to the personal topic without a leading
    slash, but the parser's only routing rule for personal topics demands
    the "/mqtt_c2b_" form — so the payload that yields a message event on
    the message-sync topic yields none on the actually-subscribed personal
    topic, while the slash-adorned variant would be routed identically. -/
theorem personal_topic_not_routed :
    personalTopic "100" ∈ clientTopics "100" ∧
    parse 0 (personalTopic "100") (msgSyncPayload (mkThreadKey (some "123") none)) = none ∧
    parse 0 "/t_ms" (msgSyncPayload (mkThreadKey (some "123") none)) =
      some (PEvent.message 0 (Json.str "123") (Json.str "9") (Json.str "m1")
        (Json.str "hi") (Json.num 1000) [] [] true) ∧
    parse 0 ("/" ++ personalTopic "100") (msgSyncPayload (mkThreadKey (some "123") none)) =
      parse 0 "/t_ms" (msgSyncPayload (mkThreadKey (some "123") none)) := by
  refine ⟨by simp [personalTopic, clientTopics], rfl, rfl, rfl⟩

/-- C6 counterexample: from the exhausted disconnected state, a manual
    connect() proceeds (sets connecting and opens the socket) but leaves
    the reconnect-attempt counter at 10 — connect() does not reset it. -/
theorem manual_connect_keeps_attempt_counter_cex :
    (connectOp stExhausted).connecting = true ∧
    (connectOp stExhausted).wsPresent = true ∧
    (connectOp stExhausted).reconnectAttempts = 10 ∧
    stExhausted.reconnectAttempts = maxReconnectAttempts := by
  decide

/-- C6 amended: once the attempt counter has reached the maximum, an
    unexpected close schedules no further reconnect and leaves the
    counter alone; a subsequent manual connect() proceeds with a fresh
    attempt but keeps the counter unchanged — the counter is reset only
    when that attempt succeeds, i.e. by the CONNACK return-code-0
    handler. -/
theorem reconnect_budget_amended (st : ClientState)
    (hmax : maxReconnectAttempts ≤ st.reconnectAttempts)
    (hw : st.wsPresent = true) :
    (handleCloseOp st).reconnectTimerSet = st.reconnectTimerSet ∧
    (handleCloseOp st).reconnectAttempts = st.reconnectAttempts ∧
    (st.connected = false → st.connecting = false →
      (connectOp st).connecting = true ∧
      (connectOp st).reconnectAttempts = st.reconnectAttempts) ∧
    (∀ uid : String, (handleConnAckOp uid st 0).reconnectAttempts = 0) := by
  obtain ⟨ws, co, cg, ra, rt, ka, lp, pa, mq, sf, em, ar, arj⟩ := st
  simp only [ClientState.wsPresent] at hw
  subst hw
  simp only [ClientState.reconnectAttempts, maxReconnectAttempts] at hmax
  have hnl : ¬(ra < maxReconnectAttempts) := by
    simp only [maxReconnectAttempts]
    omega
  refine ⟨?_, ?_, ?_, ?_⟩
  · simp [handleCloseOp, hnl]
  · simp [handleCloseOp, hnl]
  · intro h1 h2
    simp only [ClientState.connected] at h1
    simp only [ClientState.connecting] at h2
    subst h1; subst h2
    simp [connectOp]
  · intro uid
    rw [handleConnAck_success_eq]

/-- C6 witness: the amended claim applied at the concrete exhausted state
    with an open socket. -/
theorem reconnect_budget_amended_witness :
    maxReconnectAttempts ≤ stExhaustedOpen.reconnectAttempts ∧
    stExhaustedOpen.wsPresent = true ∧
    (handleCloseOp stExhaustedOpen).reconnectTimerSet = stExhaustedOpen.reconnectTimerSet :=
  ⟨by decide, by decide,
    (reconnect_budget_amended stExhaustedOpen (by decide) (by decide)).1⟩

/-- C7: for every n up to 268435455, encodeRemainingLength emits between
    1 and 4 bytes; every byte but the last is the corresponding base-128
    digit (least significant first) with the continuation bit 0x80 added,
    the last byte is the bare most-significant digit; and the decoding
    loop applied to those bytes at their starting offset recovers n,
    consuming exactly the bytes the encoder produced. -/
theorem remaining_length_codec_ok (n : Nat) (hn : n ≤ 268435455) :
    (1 ≤ (encodeRemainingLength n).length ∧ (encodeRemainingLength n).length ≤ 4) ∧
    (∀ i, i + 1 < (encodeRemainingLength n).length →
      (encodeRemainingLength n).getD i 0 = n / 128 ^ i % 128 + 128) ∧
    ((encodeRemainingLength n).getD ((encodeRemainingLength n).length - 1) 0 =
      n / 128 ^ ((encodeRemainingLength n).length - 1) % 128) ∧
    (∀ pre : List Nat,
      decodeRemainingLength (pre ++ encodeRemainingLength n) pre.length =
        (n, (encodeRemainingLength n).length)) := by
  refine ⟨⟨encodeRLAux_length_pos n n, ?_⟩, ?_, ?_, ?_⟩
  · exact encodeRLAux_length_le n n 3 le_rfl (by norm_num at hn ⊢; omega)
  · intro i hi
    exact encodeRLAux_getD_lt n n i le_rfl hi
  · exact encodeRLAux_getD_last n n le_rfl
  · intro pre
    unfold decodeRemainingLength
    rw [List.drop_left]
    have := decodeRLLoop_encodeRLAux n n 1 le_rfl
    simpa using this

/-- C7 witness: the codec claim applied at the concrete value 16384. -/
theorem remaining_length_codec_ok_witness :
    16384 ≤ 268435455 ∧
      decodeRemainingLength ([] ++ encodeRemainingLength 16384)
          (List.length ([] : List Nat)) =
        (16384, (encodeRemainingLength 16384).length) :=
  ⟨by decide, (remaining_length_codec_ok 16384 (by decide)).2.2.2 []⟩

/-- C8: publish() calls made while disconnected append to the outbound
    queue in call order; the flush performed on a live connection empties
    the queue and sends, through sendPublish, exactly one frame per queued
    message in the same order (flushSpec lists the frames of the queue in
    order and has one entry per message — no reorder, drop or
    duplication). -/
theorem queue_fifo_flush (st : ClientState) (hd : st.connected = false)
    (msgs : List MQTTMessage)
    (stC : ClientState) (hc : stC.connected = true) (hw : stC.wsPresent = true) :
    ((msgs.foldl (fun s m => publishOp s m.topic m.payload m.qos m.retain) st).messageQueue
        = st.messageQueue ++ msgs) ∧
    (processMessageQueueOp stC).messageQueue = [] ∧
    (processMessageQueueOp stC).sentFrames =
      stC.sentFrames ++ (flushSpec stC.lastPacketId stC.pendingAcks stC.messageQueue).1 ∧
    (∀ (ctr : Nat) (acks : List Nat) (q : List MQTTMessage),
      ((flushSpec ctr acks q).1).length = q.length) := by
  refine ⟨(publishFold_queue msgs st hd).1, ?_, ?_,
    fun ctr acks q => flushSpec_length q ctr acks⟩
  all_goals
    obtain ⟨ws, co, cg, ra, rt, ka, lp, pa, mq, sf, em, ar, arj⟩ := stC
    simp only [ClientState.connected] at hc
    simp only [ClientState.wsPresent] at hw
    subst hc; subst hw
    simp only [processMessageQueueOp]
    rw [processQueueGo_eq]

/-- C8 witness: the queue claim applied at three concrete QoS 0 messages
    queued from the exhausted disconnected state and flushed from the
    connected state. -/
theorem queue_fifo_flush_witness :
    stExhausted.connected = false ∧ stConnected.connected = true ∧
    stConnected.wsPresent = true ∧
    (([msgA, msgB, msgC].foldl
        (fun s m => publishOp s m.topic m.payload m.qos m.retain)
        stExhausted).messageQueue = stExhausted.messageQueue ++ [msgA, msgB, msgC]) :=
  ⟨by decide, by decide, by decide,
    (queue_fifo_flush stExhausted (by decide) [msgA, msgB, msgC] stConnected
      (by decide) (by decide)).1⟩

/-- C9: on a CONNACK with return code 0 the client is marked connected,
    the reconnect counter is reset, keep-alive starts, one SUBSCRIBE per
    fixed topic (12 of them) is issued, the outbound queue is flushed and
    connect is emitted; each return code 1-5 instead emits an error whose
    message is the fixed refusal reason of that code, the five reasons are
    pairwise distinct (in particular code 5 reads differently from
    code 2), and the handler throws nothing. -/
theorem connack_handling (uid : String) (st : ClientState) (rc : Nat)
    (hw : st.wsPresent = true) (hrc : rc ≤ 5) :
    (rc = 0 →
      (handleConnAckOp uid st 0).connected = true ∧
      (handleConnAckOp uid st 0).connecting = false ∧
      (handleConnAckOp uid st 0).reconnectAttempts = 0 ∧
      (handleConnAckOp uid st 0).keepAliveTimerSet = true ∧
      (handleConnAckOp uid st 0).messageQueue = [] ∧
      (handleConnAckOp uid st 0).emitted = st.emitted ++ [Emitted.connectEv] ∧
      (handleConnAckOp uid st 0).sentFrames =
        st.sentFrames ++ (subsSpec st.lastPacketId ((clientTopics uid).map strBytes)).1 ++
          (flushSpec (subsSpec st.lastPacketId ((clientTopics uid).map strBytes)).2
            st.pendingAcks st.messageQueue).1 ∧
      ((subsSpec st.lastPacketId ((clientTopics uid).map strBytes)).1).length = 12) ∧
    (1 ≤ rc →
      (handleConnAckOp uid st rc).emitted =
        st.emitted ++ [Emitted.errorEv (refusalReason rc)] ∧
      (handleConnAckOp uid st rc).connecting = false ∧
      (handleConnAckOp uid st rc).connected = st.connected) ∧
    (∀ i j, 1 ≤ i → i ≤ 5 → 1 ≤ j → j ≤ 5 → i ≠ j → refusalReason i ≠ refusalReason j) ∧
    refusalReason 5 ≠ refusalReason 2 := by
  obtain ⟨ws, co, cg, ra, rt, ka, lp, pa, mq, sf, em, ar, arj⟩ := st
  simp only [ClientState.wsPresent] at hw
  subst hw
  refine ⟨?_, ?_, ?_, by decide⟩
  · intro h0
    rw [handleConnAck_success_eq]
    refine ⟨rfl, rfl, rfl, rfl, rfl, rfl, by simp [List.append_assoc], ?_⟩
    rw [subsSpec_length, List.length_map]
    rfl
  · intro h1
    have hne : rc ≠ 0 := by omega
    simp [handleConnAckOp, hne]
  · intro i j h1i h2i h1j h2j hne
    interval_cases i <;> interval_cases j <;> revert hne <;> decide

/-- C9 witness: the CONNACK claim applied at the concrete connected state
    and return code 5. -/
theorem connack_handling_witness :
    stConnected.wsPresent = true ∧ (5 : Nat) ≤ 5 ∧
    refusalReason 5 ≠ refusalReason 2 :=
  ⟨by decide, by decide,
    (connack_handling "100" stConnected 5 (by decide) (by decide)).2.2.2⟩

/-- C10: publish() on a live connection evaluates to exactly the state
    component of sendPublish, discarding the acknowledgment promise
    sendPublish creates (its second component, present for a QoS 1
    publish whose allocated id is nonzero), so the caller observes no
    acknowledgment outcome; internally the pending entry is resolved and
    removed by a matching PUBACK, or removed and rejected when the
    30000 ms timeout fires. -/
theorem publish_returns_void_ack_internal (st : ClientState)
    (topic payload : List Nat) (retain : Bool)
    (h1 : st.connected = true) (h2 : st.wsPresent = true)
    (h3 : (st.lastPacketId + 1) % 65536 ≠ 0) :
    publishOp st topic payload 1 retain = (sendPublishOp st ⟨topic, payload, 1, retain⟩).1 ∧
    (sendPublishOp st ⟨topic, payload, 1, retain⟩).2 = some ((st.lastPacketId + 1) % 65536) ∧
    ((st.lastPacketId + 1) % 65536) ∈ (publishOp st topic payload 1 retain).pendingAcks ∧
    (handlePubAckOp (publishOp st topic payload 1 retain)
        ((st.lastPacketId + 1) % 65536)).pendingAcks =
      ((publishOp st topic payload 1 retain).pendingAcks).erase
        ((st.lastPacketId + 1) % 65536) ∧
    (handlePubAckOp (publishOp st topic payload 1 retain)
        ((st.lastPacketId + 1) % 65536)).ackResolved =
      (publishOp st topic payload 1 retain).ackResolved ++ [(st.lastPacketId + 1) % 65536] ∧
    (ackTimeoutOp (publishOp st topic payload 1 retain)
        ((st.lastPacketId + 1) % 65536)).pendingAcks =
      ((publishOp st topic payload 1 retain).pendingAcks).erase
        ((st.lastPacketId + 1) % 65536) ∧
    (ackTimeoutOp (publishOp st topic payload 1 retain)
        ((st.lastPacketId + 1) % 65536)).ackRejected =
      (publishOp st topic payload 1 retain).ackRejected ++ [(st.lastPacketId + 1) % 65536] ∧
    ackTimeoutMs = 30000 := by
  obtain ⟨ws, co, cg, ra, rt, ka, lp, pa, mq, sf, em, ar, arj⟩ := st
  simp only [ClientState.connected] at h1
  simp only [ClientState.wsPresent] at h2
  simp only [ClientState.lastPacketId] at h3
  subst h1; subst h2
  have hpub : publishOp ⟨true, true, cg, ra, rt, ka, lp, pa, mq, sf, em, ar, arj⟩
      topic payload 1 retain =
      ⟨true, true, cg, ra, rt, ka, (lp + 1) % 65536, mapSet pa ((lp + 1) % 65536), mq,
        sf ++ [buildPublishPacket ⟨topic, payload, 1, retain⟩ (some ((lp + 1) % 65536))],
        em, ar, arj⟩ := by
    simp [publishOp, sendPublishOp, wsSend, advancePacketId, h3]
  have hmem : (lp + 1) % 65536 ∈ mapSet pa ((lp + 1) % 65536) := by
    by_cases h : (lp + 1) % 65536 ∈ pa <;> simp [mapSet, h]
  rw [hpub]
  refine ⟨?_, ?_, hmem, ?_, ?_, ?_, ?_, rfl⟩
  · simp [publishOp, sendPublishOp, wsSend, advancePacketId, h3]
  · simp [sendPublishOp, wsSend, advancePacketId, h3]
  · simp [handlePubAckOp, hmem]
  · simp [handlePubAckOp, hmem]
  · simp [ackTimeoutOp, hmem]
  · simp [ackTimeoutOp, hmem]

/-- C10 witness: the claim applied at the concrete connected state and a
    one-byte topic. -/
theorem publish_returns_void_ack_internal_witness :
    stConnected.connected = true ∧ stConnected.wsPresent = true ∧
    (stConnected.lastPacketId + 1) % 65536 ≠ 0 ∧
    (sendPublishOp stConnected ⟨strBytes "t", [], 1, false⟩).2 =
      some ((stConnected.lastPacketId + 1) % 65536) :=
  ⟨by decide, by decide, by decide,
    (publish_returns_void_ack_internal stConnected (strBytes "t") [] false
      (by decide) (by decide) (by decide)).2.1⟩

end Panindigan
